import Mathlib

/-
Verification of the Micro-Loan Underwriting Assistant (src/src/main.py).

Shallow embedding conventions:
* Monetary amounts, feature values and scores are rationals (the source uses
  Python floats; the tolerance comparison and the score arithmetic are modelled
  exactly over the rationals).
* Dates are integers counting days (the source stores ISO date strings and
  compares datetimes; only day-granularity ordering and +n-days arithmetic
  occur, so day numbers are a faithful model).
* The badge list stored in the user_gamification.badges_earned column is the
  comma-join of a list of badge names; the source decodes it with
  split(",") on read (empty string decoding to the empty list) and re-encodes
  with ",".join on write.  Since the three badge names that ever occur are
  non-empty and comma-free, decode-after-encode is the identity on all
  reachable states, and we model the column directly as the decoded list.
* The fitted scaler and logistic-regression model are opaque artifacts
  (spec section 1); their composition features -> predict_proba(..)[0][1] is a
  parameter predictProba.  The SHAP explainer is a parameter that either
  returns a contribution vector or fails (models an exception being raised).
* SQLite rows are records; tables are lists of rows in insertion order.
* Each handler returns Except Http (response x new database state).  Every
  error path of the source exits before conn.commit(), so the connection's
  uncommitted writes are rolled back; accordingly an error result carries no
  state and the pre-call state is the state afterwards.
-/

namespace MicroLoan

/-- The four alternative-data features, in the fixed order of main.py. -/
structure Features where
  transaction_frequency : ℚ
  avg_transaction_amount : ℚ
  utility_payment_consistency : ℚ
  airtime_topup_frequency : ℚ
deriving DecidableEq

/-- A row of the users table (init_db, main.py lines 26-34). -/
structure UserRow where
  user_id : String
  transaction_frequency : ℚ
  avg_transaction_amount : ℚ
  utility_payment_consistency : ℚ
  airtime_topup_frequency : ℚ
deriving DecidableEq

/-- The stored features of a user row, in model-input order
(fetch_user_data, main.py lines 102-115 and lines 267-268). -/
def UserRow.features (u : UserRow) : Features :=
  ⟨u.transaction_frequency, u.avg_transaction_amount,
   u.utility_payment_consistency, u.airtime_topup_frequency⟩

/-- A row of the loans table (init_db, main.py lines 35-46). -/
structure LoanRow where
  loan_id : String
  user_id : String
  amount : ℚ
  decision : String
  score : ℚ
  application_date : ℤ
  due_date : ℤ
deriving DecidableEq

/-- A row of the repayments table (init_db, main.py lines 47-58); the
auto-increment id is the position in the list. -/
structure RepaymentRow where
  user_id : String
  loan_id : String
  payment_date : ℤ
  amount : ℚ
  status : String
deriving DecidableEq

/-- A row of the user_gamification table (init_db, main.py lines 59-67),
with the badges column decoded to a list as explained in the header. -/
structure GamRow where
  user_id : String
  repayment_streak : ℕ
  points_earned : ℕ
  badges_earned : List String
deriving DecidableEq

/-- The whole SQLite database state. -/
structure DB where
  users : List UserRow
  loans : List LoanRow
  repayments : List RepaymentRow
  gamification : List GamRow
deriving DecidableEq

/-- SELECT * FROM users WHERE user_id = ? (primary key, at most one row). -/
def findUser (db : DB) (uid : String) : Option UserRow :=
  db.users.find? (fun u => u.user_id == uid)

/-- SELECT amount, due_date FROM loans WHERE loan_id = ? (primary key). -/
def findLoan (db : DB) (lid : String) : Option LoanRow :=
  db.loans.find? (fun l => l.loan_id == lid)

/-- SELECT repayment_streak, points_earned, badges_earned FROM
user_gamification WHERE user_id = ? (primary key). -/
def findGam (db : DB) (uid : String) : Option GamRow :=
  db.gamification.find? (fun g => g.user_id == uid)

/-- An HTTP error response (FastAPI HTTPException: status code and detail). -/
structure Http where
  status : ℕ
  detail : String
deriving DecidableEq

/-- The request body of POST /loan/apply (pydantic model LoanApplication,
main.py lines 76-82). -/
structure LoanApplication where
  user_id : String
  loan_amount : ℚ
  transaction_frequency : ℚ
  avg_transaction_amount : ℚ
  utility_payment_consistency : ℚ
  airtime_topup_frequency : ℚ
deriving DecidableEq

/-- The feature vector built from an application (main.py lines 121-126). -/
def LoanApplication.features (a : LoanApplication) : Features :=
  ⟨a.transaction_frequency, a.avg_transaction_amount,
   a.utility_payment_consistency, a.airtime_topup_frequency⟩

/-- The pydantic Field constraints on LoanApplication (main.py lines 76-82);
requests violating them are rejected before the handler runs. -/
def ValidApplication (a : LoanApplication) : Prop :=
  a.user_id ≠ "" ∧ 0 < a.loan_amount ∧ 0 ≤ a.transaction_frequency ∧
  0 ≤ a.avg_transaction_amount ∧ 0 ≤ a.utility_payment_consistency ∧
  a.utility_payment_consistency ≤ 1 ∧ 0 ≤ a.airtime_topup_frequency

instance (a : LoanApplication) : Decidable (ValidApplication a) := by
  unfold ValidApplication
  infer_instance

/-- The request body of POST /repayment/record (pydantic model Repayment,
main.py lines 84-88), with the ISO payment date decoded to a day number. -/
structure RepayRequest where
  user_id : String
  loan_id : String
  payment_date : ℤ
  amount : ℚ
deriving DecidableEq

/-- Score computation (main.py line 133): the classifier probability for the
positive class, times 100.  predictProba abstracts the composition of the
fitted scaler and model. -/
def scoreOf (predictProba : Features → ℚ) (f : Features) : ℚ :=
  predictProba f * 100

/-- Decision policy (main.py line 134). -/
def decisionOf (score : ℚ) : String :=
  if score > 70 then "approve" else "deny"

/-- Repayment status computation (main.py line 243). -/
def repayStatus (payment_date due_date : ℤ) : String :=
  if payment_date ≤ due_date + 1 then "on-time" else "late"

/-- The gamification transition of record_repayment (main.py lines 254-262),
as a function of the decoded current state and the computed status.  The
second badge test runs against the list as possibly extended by the first
one, exactly as the source mutates the single Python list. -/
def advance (streak points : ℕ) (badges : List String) (status : String) :
    ℕ × ℕ × List String :=
  let new_streak := if status = "on-time" then streak + 1 else 0
  let points1 := if status = "on-time" then points + 50 else points
  let pb3 : ℕ × List String :=
    if new_streak = 3 ∧ "Consistent Payer" ∉ badges then
      (points1 + 100, badges ++ ["Consistent Payer"])
    else (points1, badges)
  let pb5 : ℕ × List String :=
    if new_streak = 5 ∧ "Reliable Borrower" ∉ pb3.2 then
      (pb3.1 + 200, pb3.2 ++ ["Reliable Borrower"])
    else pb3
  (new_streak, pb5.1, pb5.2)

/-- Modelled from the spec's words (section 4.5), for comparison with
advance: on on-time, increment the streak, add 50 points, then award each
threshold badge when the new streak hits its threshold and the badge is
absent from the current badge set; on late, reset the streak and leave
points and badges unchanged.  Unlike advance, both badge tests here are
against the state's badge set. -/
def advanceSpec (streak points : ℕ) (badges : List String) (status : String) :
    ℕ × ℕ × List String :=
  if status = "on-time" then
    let streak1 := streak + 1
    let points1 := points + 50
    let pb3 : ℕ × List String :=
      if streak1 = 3 ∧ "Consistent Payer" ∉ badges then
        (points1 + 100, badges ++ ["Consistent Payer"])
      else (points1, badges)
    let pb5 : ℕ × List String :=
      if streak1 = 5 ∧ "Reliable Borrower" ∉ badges then
        (pb3.1 + 200, pb3.2 ++ ["Reliable Borrower"])
      else pb3
    (streak1, pb5.1, pb5.2)
  else (0, points, badges)

/-- The SHAP contribution vector built by apply_loan (main.py lines
137-143): one additive contribution per feature. -/
structure Explanation where
  transaction_frequency : ℚ
  avg_transaction_amount : ℚ
  utility_payment_consistency : ℚ
  airtime_topup_frequency : ℚ
deriving DecidableEq

/-- The success response of POST /loan/apply (main.py lines 178-187);
the human-readable message field is omitted. -/
structure ApplyResponse where
  user_id : String
  loan_id : String
  decision : String
  score : ℚ
  explanation : Explanation
  points_earned : ℕ
  badges_earned : List String
deriving DecidableEq

/-- The success response of POST /repayment/record (main.py lines 282-291);
the human-readable message field is omitted. -/
structure RepayResponse where
  user_id : String
  loan_id : String
  status : String
  new_repayment_streak : ℕ
  points_earned : ℕ
  badges_earned : List String
  new_score : ℚ
deriving DecidableEq

/-- is_first_application (main.py lines 91-97): counts the user's loans.
It opens its own SQLite connection, so it reads the committed state and is
not part of the write transaction of apply_loan. -/
def is_first_application (db : DB) (uid : String) : Bool :=
  (db.loans.filter (fun l => l.user_id == uid)).length == 0

/-- next_due_date (main.py lines 99-100): 30 days from now. -/
def next_due_date (now : ℤ) : ℤ :=
  now + 30

/-- The write transaction of apply_loan (main.py lines 152-176), on one
connection, committed at the end:
* INSERT OR IGNORE INTO users: first write wins, an existing row is kept;
* INSERT INTO loans: a primary-key conflict raises sqlite3.Error, which is
  answered by rollback and a 500 HTTPException (lines 172-174);
* INSERT OR IGNORE INTO user_gamification: zeroed row if absent;
* UPDATE user_gamification: adds the 50 points and OVERWRITES the stored
  badges column with exactly this request's badge delta (line 168). -/
def applyCommit (db : DB) (a : LoanApplication) (loan_id : String)
    (decision : String) (score : ℚ) (now : ℤ) (badges : List String) : DB :=
  let users' :=
    if db.users.any (fun u => u.user_id == a.user_id) then db.users
    else db.users ++ [⟨a.user_id, a.transaction_frequency,
      a.avg_transaction_amount, a.utility_payment_consistency,
      a.airtime_topup_frequency⟩]
  let loans' := db.loans ++ [⟨loan_id, a.user_id, a.loan_amount, decision,
    score, now, next_due_date now⟩]
  let gam1 :=
    if db.gamification.any (fun g => g.user_id == a.user_id) then
      db.gamification
    else db.gamification ++ [⟨a.user_id, 0, 0, []⟩]
  let gam2 := gam1.map (fun g =>
    if g.user_id == a.user_id then
      { g with points_earned := g.points_earned + 50,
               badges_earned := badges }
    else g)
  { db with users := users', loans := loans', gamification := gam2 }

/-- The write transaction of apply_loan with its failure mode: inserting a
loan id that already exists raises sqlite3.Error, answered by rollback and
a 500 HTTPException (lines 172-174); otherwise the four writes of
applyCommit are committed. -/
def applyWrites (db : DB) (a : LoanApplication) (loan_id : String)
    (decision : String) (score : ℚ) (now : ℤ) (badges : List String) :
    Except Http DB :=
  if db.loans.any (fun l => l.loan_id == loan_id) then
    .error ⟨500, "Database error: UNIQUE constraint failed: loans.loan_id"⟩
  else
    .ok (applyCommit db a loan_id decision score now badges)

/-- The handler of POST /loan/apply (main.py lines 118-189).  predictProba
abstracts scaler.transform plus model.predict_proba; explain abstracts the
SHAP explainer, none modelling an exception raised while computing the
contributions.  now is the single datetime.now() instant, as a day number;
the loan id also embeds it (the source embeds the UNIX timestamp of the same
instant).  The whole body runs inside a try whose except Exception clause
(lines 188-189) converts any exception, FastAPI HTTPExceptions included,
into a 500 HTTPException. -/
def apply_loan (predictProba : Features → ℚ)
    (explain : Features → Option Explanation) (now : ℤ) (db : DB)
    (a : LoanApplication) : Except Http (ApplyResponse × DB) :=
  let f := a.features
  let inner : Except Http (ApplyResponse × DB) :=
    let score := scoreOf predictProba f
    let decision := decisionOf score
    match explain f with
    | none => .error ⟨500, "shap explainer raised"⟩
    | some expl =>
      let points := 50
      let badges :=
        if is_first_application db a.user_id then ["First Application"]
        else []
      let loan_id := "L" ++ a.user_id ++ "_" ++ toString now
      match applyWrites db a loan_id decision score now badges with
      | .error e => .error e
      | .ok db' =>
        .ok ({ user_id := a.user_id, loan_id := loan_id,
               decision := decision, score := score, explanation := expl,
               points_earned := points, badges_earned := badges }, db')
  match inner with
  | .ok x => .ok x
  | .error e =>
    .error ⟨500, "Error processing loan application: " ++ e.detail⟩

/-- Lines 241-291 of record_repayment, run once validation has passed and
the loan and user rows are in hand: compute the status, read the
gamification row (inserting an uncommitted zeroed row when absent), advance
the gamification state, recompute the score from the stored user features,
insert the repayment row, update the gamification row, commit, and build
the response.  Note the response reports a flat 50/0 points delta (line
287) and selects the badge list purely by the new streak value (line
288). -/
def repaySuccess (predictProba : Features → ℚ) (db : DB) (r : RepayRequest)
    (loan : LoanRow) (u : UserRow) : RepayResponse × DB :=
  let status := repayStatus r.payment_date loan.due_date
  let gam0 : ℕ × ℕ × List String :=
    match findGam db r.user_id with
    | some g => (g.repayment_streak, g.points_earned, g.badges_earned)
    | none => (0, 0, [])
  let db1 : DB :=
    match findGam db r.user_id with
    | some _ => db
    | none =>
      { db with gamification := db.gamification ++ [⟨r.user_id, 0, 0, []⟩] }
  let adv := advance gam0.1 gam0.2.1 gam0.2.2 status
  let new_score := scoreOf predictProba u.features
  let db2 : DB := { db1 with repayments := db1.repayments ++
    [⟨r.user_id, r.loan_id, r.payment_date, r.amount, status⟩] }
  let gamUpd : List GamRow := db2.gamification.map (fun g =>
    if g.user_id == r.user_id then ⟨r.user_id, adv.1, adv.2.1, adv.2.2⟩
    else g)
  let db3 : DB := { db2 with gamification := gamUpd }
  (⟨r.user_id, r.loan_id, status, adv.1,
    if status = "on-time" then 50 else 0,
    if adv.1 = 3 then ["Consistent Payer"]
    else if adv.1 = 5 then ["Reliable Borrower"] else [],
    new_score⟩, db3)

/-- The handler of POST /repayment/record (main.py lines 230-298).
Validation: the loan must exist and the amount must match its principal
within 0.01 (lines 236-239), else an HTTPException with status 400 is
raised; fetch_user_data raises a 404 HTTPException when the user row is
absent (line 265).  The user-existence check is hoisted above the pure
status/gamification computation here; this commutes because no write is
committed before line 280, so every exception leaves the stored state
unchanged.  Crucially, the handler body runs inside a try whose except
Exception clause (lines 295-296) catches FastAPI HTTPExceptions too — they
subclass Exception — and re-raises them as a 500 HTTPException whose detail
embeds the original status and detail. -/
def record_repayment (predictProba : Features → ℚ) (db : DB)
    (r : RepayRequest) : Except Http (RepayResponse × DB) :=
  let inner : Except Http (RepayResponse × DB) :=
    match findLoan db r.loan_id with
    | none => .error ⟨400, "Invalid loan or amount"⟩
    | some loan =>
      if 1/100 < |loan.amount - r.amount| then
        .error ⟨400, "Invalid loan or amount"⟩
      else
        match findUser db r.user_id with
        | none => .error ⟨404, "User not found"⟩
        | some u => .ok (repaySuccess predictProba db r loan u)
  match inner with
  | .ok x => .ok x
  | .error e =>
    .error ⟨500, "Error processing repayment: " ++ toString e.status ++
      ": " ++ e.detail⟩

/-- One interleaving of two concurrent apply_loan requests for the same
user, available to the source because is_first_application runs on its own
SQLite connection, before and outside the write transaction: both count
reads complete against the same committed state before either write
transaction commits, and the two write transactions then serialize.
Returns the two responses' badge deltas and the final state. -/
def applyApplyRace (predictProba : Features → ℚ) (t1 t2 : ℤ) (db : DB)
    (a : LoanApplication) : List String × List String × DB :=
  let first1 := is_first_application db a.user_id
  let first2 := is_first_application db a.user_id
  let badges1 := if first1 then ["First Application"] else []
  let badges2 := if first2 then ["First Application"] else []
  let score := scoreOf predictProba a.features
  let decision := decisionOf score
  let db1 :=
    match applyWrites db a ("L" ++ a.user_id ++ "_" ++ toString t1) decision
        score t1 badges1 with
    | .ok d => d
    | .error _ => db
  let db2 :=
    match applyWrites db1 a ("L" ++ a.user_id ++ "_" ++ toString t2) decision
        score t2 badges2 with
    | .ok d => d
    | .error _ => db1
  (badges1, badges2, db2)

/-- A concrete classifier artifact: constant probability 1/2 (score 50). -/
def ppHalf : Features → ℚ := fun _ => 1/2

/-- A concrete classifier artifact: constant probability 4/5 (score 80). -/
def ppHigh : Features → ℚ := fun _ => 4/5

/-- A concrete explainer artifact that always succeeds. -/
def explZero : Features → Option Explanation := fun _ => some ⟨0, 0, 0, 0⟩

/-- A concrete explainer artifact that always raises. -/
def explFail : Features → Option Explanation := fun _ => none

/-- The empty database, as created by init_db. -/
def db0 : DB := ⟨[], [], [], []⟩

/-- A concrete valid loan application. -/
def appBob : LoanApplication := ⟨"bob", 100, 1, 1, 1, 1⟩

/-- The committed state after a handler call: the new state on success, the
unchanged state on error (rollback). -/
def stepApply (pp : Features → ℚ) (expl : Features → Option Explanation)
    (now : ℤ) (db : DB) (a : LoanApplication) : DB :=
  match apply_loan pp expl now db a with
  | .ok x => x.2
  | .error _ => db

/-- The committed state after a record_repayment call, as stepApply. -/
def stepRepay (pp : Features → ℚ) (db : DB) (r : RepayRequest) : DB :=
  match record_repayment pp db r with
  | .ok x => x.2
  | .error _ => db

/-- An on-time repayment of bob's first loan on day d. -/
def repayBob (d : ℤ) : RepayRequest := ⟨"bob", "Lbob_0", d, 100⟩

/-- Trace for the badge-wipe scenario: bob applies on day 0. -/
def dbT1 : DB := stepApply ppHalf explZero 0 db0 appBob

/-- ... then repays on time on day 1 (streak 1). -/
def dbT2 : DB := stepRepay ppHalf dbT1 (repayBob 1)

/-- ... then on day 2 (streak 2). -/
def dbT3 : DB := stepRepay ppHalf dbT2 (repayBob 2)

/-- ... then on day 3: streak 3, badge Consistent Payer, +100 bonus. -/
def dbT4 : DB := stepRepay ppHalf dbT3 (repayBob 3)

/-- ... then applies a second time on day 100. -/
def dbT5 : DB := stepApply ppHalf explZero 100 dbT4 appBob

/-- Bob's stored user row (created by his first application). -/
def userBob : UserRow := ⟨"bob", 1, 1, 1, 1⟩

/-- Bob's first loan: principal 100, applied day 0, due day 30. -/
def loanBob : LoanRow := ⟨"Lbob_0", "bob", 100, "deny", 50, 0, 30⟩

/-- The state after bob's first application, written out literally. -/
def dbBob : DB := ⟨[userBob], [loanBob], [], [⟨"bob", 0, 50, ["First Application"]⟩]⟩

/-- A second application by bob with entirely different feature values. -/
def appBob2 : LoanApplication := ⟨"bob", 500, 9, 9, 1/2, 9⟩

/-- A repay request naming a loan id that does not exist. -/
def repayUnknown : RepayRequest := ⟨"bob", "nosuch", 1, 100⟩

/-- A repay request for bob's loan with amount 200 against principal 100. -/
def repayWrongAmt : RepayRequest := ⟨"bob", "Lbob_0", 1, 200⟩

/-- Bob with a current streak of 2 and no badges. -/
def dbStreak2 : DB := ⟨[userBob], [loanBob], [], [⟨"bob", 2, 0, []⟩]⟩

/-- The state dbStreak2 evolves to on an on-time repayment on day 1:
streak 3, +50 +100 bonus points, Consistent Payer granted. -/
def dbStreak2After : DB :=
  ⟨[userBob], [loanBob], [⟨"bob", "Lbob_0", 1, 100, "on-time"⟩],
   [⟨"bob", 3, 150, ["Consistent Payer"]⟩]⟩

/-- Bob with a streak of 2 and Consistent Payer already held. -/
def dbStreak2CP : DB :=
  ⟨[userBob], [loanBob], [], [⟨"bob", 2, 100, ["Consistent Payer"]⟩]⟩

/-- The state dbStreak2CP evolves to on an on-time repayment on day 1:
streak 3, +50 points only, badge set unchanged. -/
def dbStreak2CPAfter : DB :=
  ⟨[userBob], [loanBob], [⟨"bob", "Lbob_0", 1, 100, "on-time"⟩],
   [⟨"bob", 3, 150, ["Consistent Payer"]⟩]⟩

/-- Alice's stored user row. -/
def userAlice : UserRow := ⟨"alice", 2, 3, 1, 4⟩

/-- A loan owned by alice. -/
def loanAlice : LoanRow := ⟨"LA", "alice", 100, "deny", 50, 0, 30⟩

/-- Two users; the only loan belongs to alice. -/
def dbMix : DB := ⟨[userAlice, userBob], [loanAlice], [], []⟩

/-- Bob repays alice's loan with the right amount. -/
def repayMix : RepayRequest := ⟨"bob", "LA", 10, 100⟩

/-- The response of the approve run of apply_loan on ppHigh. -/
def respHighBob : ApplyResponse :=
  ⟨"bob", "Lbob_0", "approve", 80, ⟨0, 0, 0, 0⟩, 50, ["First Application"]⟩

/-- The state after the approve run of apply_loan on ppHigh. -/
def dbHighBob : DB :=
  ⟨[userBob], [⟨"Lbob_0", "bob", 100, "approve", 80, 0, 30⟩], [],
   [⟨"bob", 0, 50, ["First Application"]⟩]⟩

/-- The response of repaying bob's loan on day 31 (the grace boundary). -/
def respBob31 : RepayResponse := ⟨"bob", "Lbob_0", "on-time", 1, 50, [], 50⟩

/-- The state after repaying bob's loan on day 31. -/
def dbBob31 : DB :=
  ⟨[userBob], [loanBob], [⟨"bob", "Lbob_0", 31, 100, "on-time"⟩],
   [⟨"bob", 1, 100, ["First Application"]⟩]⟩

/-- The response of bob's second application (day 7) against dbBob. -/
def respBob2 : ApplyResponse :=
  ⟨"bob", "Lbob_7", "deny", 50, ⟨0, 0, 0, 0⟩, 50, []⟩

/-- The state after bob's second application: features untouched, loan
added, 50 points added, stored badges overwritten with the empty delta. -/
def dbBob2After : DB :=
  ⟨[userBob], [loanBob, ⟨"Lbob_7", "bob", 500, "deny", 50, 7, 37⟩], [],
   [⟨"bob", 0, 100, []⟩]⟩

/-- The response of the on-time repayment from streak 2: note the flat 50
points and the badge list chosen by streak value alone. -/
def respS2 : RepayResponse :=
  ⟨"bob", "Lbob_0", "on-time", 3, 50, ["Consistent Payer"], 50⟩

/- Helper lemmas (evaluation facts and success-inversion principles). -/

/-- The loan id generated for bob at instant 0. -/
theorem loanIdBob0 : "L" ++ "bob" ++ "_" ++ toString (0 : ℤ) = "Lbob_0" := by
  decide

/-- The loan id generated for bob at instant 7. -/
theorem loanIdBob7 : "L" ++ "bob" ++ "_" ++ toString (7 : ℤ) = "Lbob_7" := by
  decide

/-- The loan id generated for bob at instant 100. -/
theorem loanIdBob100 :
    "L" ++ "bob" ++ "_" ++ toString (100 : ℤ) = "Lbob_100" := by
  decide

/-- The decision policy approves exactly above the fixed 70 threshold. -/
theorem decisionOf_eq_approve_iff (s : ℚ) :
    decisionOf s = "approve" ↔ 70 < s := by
  unfold decisionOf
  split_ifs with h
  · simpa using h
  · simp [h]

/-- The status computation returns on-time exactly on or before the grace
day after the due date. -/
theorem repayStatus_eq_ontime_iff (p d : ℤ) :
    repayStatus p d = "on-time" ↔ p ≤ d + 1 := by
  unfold repayStatus
  split_ifs with h
  · simpa using h
  · simp [h]

/-- Success inversion for record_repayment: the call succeeds exactly when
the referenced loan exists, the amount matches its principal within 0.01,
and the requesting user's row exists; the outcome is then repaySuccess. -/
theorem record_repayment_ok_iff (pp : Features → ℚ) (db : DB)
    (r : RepayRequest) (resp : RepayResponse) (db' : DB) :
    record_repayment pp db r = .ok (resp, db') ↔
    ∃ loan u, findLoan db r.loan_id = some loan ∧
      ¬ (1/100 < |loan.amount - r.amount|) ∧
      findUser db r.user_id = some u ∧
      (resp, db') = repaySuccess pp db r loan u := by
  unfold record_repayment
  cases hl : findLoan db r.loan_id with
  | none => simp [hl]
  | some loan =>
    simp only [hl]
    split_ifs with hamt
    · simp
      intro h
      exact absurd h (not_le.mpr (by rwa [one_div] at hamt))
    · cases hu : findUser db r.user_id with
      | none => simp [hu, hamt]
      | some u =>
        simp [hu, hamt, eq_comm]
        intro _
        rw [← one_div]
        exact not_lt.mp hamt

/-- Success inversion for apply_loan: the call succeeds exactly when the
explainer returns a contribution vector and the write transaction commits,
and then the response carries the computed decision, score, explanation and
gamification delta. -/
theorem apply_loan_ok_iff (pp : Features → ℚ)
    (explain : Features → Option Explanation) (now : ℤ) (db : DB)
    (a : LoanApplication) (resp : ApplyResponse) (db' : DB) :
    apply_loan pp explain now db a = .ok (resp, db') ↔
    ∃ expl, explain a.features = some expl ∧
      applyWrites db a ("L" ++ a.user_id ++ "_" ++ toString now)
        (decisionOf (scoreOf pp a.features)) (scoreOf pp a.features) now
        (if is_first_application db a.user_id then ["First Application"]
          else []) = .ok db' ∧
      resp = ⟨a.user_id, "L" ++ a.user_id ++ "_" ++ toString now,
        decisionOf (scoreOf pp a.features), scoreOf pp a.features, expl, 50,
        if is_first_application db a.user_id then ["First Application"]
        else []⟩ := by
  unfold apply_loan
  cases he : explain a.features with
  | none => simp [he]
  | some expl =>
    simp only [he]
    cases hw : applyWrites db a ("L" ++ a.user_id ++ "_" ++ toString now)
        (decisionOf (scoreOf pp a.features)) (scoreOf pp a.features) now
        (if is_first_application db a.user_id then ["First Application"]
          else []) with
    | error e => simp [hw]
    | ok dbw =>
      simp only [hw]
      constructor
      · rintro h
        injection h with h
        injection h with h1 h2
        exact ⟨expl, rfl, by rw [h2], h1.symm⟩
      · rintro ⟨expl', he', hw', hresp⟩
        injection he' with he'
        injection hw' with hw'
        subst he'
        subst hw'
        rw [hresp]

/-- Success inversion for the apply write transaction: it commits exactly
when the generated loan id is fresh, and then performs the user upsert,
the loan insert and the gamification upsert and update. -/
theorem applyWrites_ok_iff (db : DB) (a : LoanApplication) (loan_id : String)
    (decision : String) (score : ℚ) (now : ℤ) (badges : List String)
    (db' : DB) :
    applyWrites db a loan_id decision score now badges = .ok db' ↔
    db.loans.any (fun l => l.loan_id == loan_id) = false ∧
    db' = applyCommit db a loan_id decision score now badges := by
  unfold applyWrites
  split_ifs with h
  · simp [h]
  · simp [h, eq_comm]

/-- C1: the repayment progression transition is, for every current
gamification state (streak, points, badges): on an on-time repayment, the
new streak is streak + 1 and points increase by 50, plus 100 more with
badge Consistent Payer added when the new streak equals 3 and that badge
is absent, plus 200 more with badge Reliable Borrower added when the new
streak equals 5 and that badge is absent; on a late repayment, the new
streak is 0 and points and badges are unchanged. -/
theorem advance_matches_spec (s p : ℕ) (b : List String) :
    advance s p b "on-time" = advanceSpec s p b "on-time" ∧
    advance s p b "late" = (0, p, b) := by
  have hlate : ("late" : String) ≠ "on-time" := by decide
  have hcprb : ("Reliable Borrower" : String) ≠ "Consistent Payer" := by
    decide
  constructor
  · unfold advance advanceSpec
    simp only [reduceIte]
    split_ifs with h1 h2 h3 h4 <;>
      simp_all [List.mem_append, List.mem_singleton]
  · unfold advance
    simp [hlate]

/-- C3: for every valid loan application, the decision is approve iff the
computed score is strictly greater than 70, and the score lies in [0, 100]
(the classifier's probability output in [0, 1] multiplied by 100). -/
theorem apply_decision_iff_score (pp : Features → ℚ)
    (explain : Features → Option Explanation) (now : ℤ) (db : DB)
    (a : LoanApplication) (resp : ApplyResponse) (db' : DB)
    (hval : ValidApplication a)
    (h0 : 0 ≤ pp a.features) (h1 : pp a.features ≤ 1)
    (hok : apply_loan pp explain now db a = .ok (resp, db')) :
    (resp.decision = "approve" ↔ 70 < resp.score) ∧
    0 ≤ resp.score ∧ resp.score ≤ 100 := by
  obtain ⟨expl, -, -, hresp⟩ :=
    (apply_loan_ok_iff pp explain now db a resp db').mp hok
  subst hresp
  refine ⟨decisionOf_eq_approve_iff _, ?_, ?_⟩
  · exact mul_nonneg h0 (by norm_num)
  · have h := mul_le_mul_of_nonneg_right h1 (show (0:ℚ) ≤ 100 by norm_num)
    simpa [scoreOf] using h

/-- C4: for every recorded repayment, the stored status is on-time iff the
payment date is at most the loan's due date plus one day; the boundary
days due+1 and due+2 yield on-time and late respectively. -/
theorem repay_status_stored_iff (pp : Features → ℚ) (db : DB)
    (r : RepayRequest) (loan : LoanRow) (resp : RepayResponse) (db' : DB)
    (hloan : findLoan db r.loan_id = some loan)
    (hok : record_repayment pp db r = .ok (resp, db')) :
    db'.repayments = db.repayments ++
      [⟨r.user_id, r.loan_id, r.payment_date, r.amount, resp.status⟩] ∧
    (resp.status = "on-time" ↔ r.payment_date ≤ loan.due_date + 1) ∧
    repayStatus (loan.due_date + 1) loan.due_date = "on-time" ∧
    repayStatus (loan.due_date + 2) loan.due_date = "late" := by
  obtain ⟨loan', u, hl', hamt, hu, hpair⟩ :=
    (record_repayment_ok_iff pp db r resp db').mp hok
  rw [hloan] at hl'
  injection hl' with hl'
  subst hl'
  have hresp : resp = (repaySuccess pp db r loan u).1 :=
    congrArg Prod.fst hpair
  have hdb : db' = (repaySuccess pp db r loan u).2 :=
    congrArg Prod.snd hpair
  refine ⟨?_, ?_, ?_, ?_⟩
  · rw [hdb, hresp]
    cases hg : findGam db r.user_id <;> simp [repaySuccess, hg]
  · rw [hresp]
    simpa [repaySuccess] using
      repayStatus_eq_ontime_iff r.payment_date loan.due_date
  · unfold repayStatus
    rw [if_pos (by omega)]
  · unfold repayStatus
    rw [if_neg (by omega)]

/-- C6: the four stored alternative-data features are set by the user's
first application and never changed by a later one: any successful apply
for a user who already has a stored row leaves that row intact (INSERT OR
IGNORE, first write wins). -/
theorem apply_first_write_wins (pp : Features → ℚ)
    (explain : Features → Option Explanation) (now : ℤ) (db : DB)
    (a : LoanApplication) (u : UserRow) (resp : ApplyResponse) (db' : DB)
    (hu : findUser db a.user_id = some u)
    (hok : apply_loan pp explain now db a = .ok (resp, db')) :
    findUser db' a.user_id = some u := by
  obtain ⟨expl, -, hw, -⟩ :=
    (apply_loan_ok_iff pp explain now db a resp db').mp hok
  obtain ⟨-, hdb⟩ := (applyWrites_ok_iff db a _ _ _ now _ db').mp hw
  have hany : db.users.any (fun x => x.user_id == a.user_id) = true := by
    unfold findUser at hu
    have hp := List.find?_some hu
    have hm := List.mem_of_find?_eq_some hu
    exact List.any_eq_true.mpr ⟨u, hm, hp⟩
  rw [hdb]
  unfold findUser applyCommit
  simpa [hany] using hu

/-- C8 (amended): the repay response's points_earned is a flat 50 for
on-time and 0 for late, ignoring any badge bonus, and its badges_earned is
selected purely by the new streak value (Consistent Payer at 3, Reliable
Borrower at 5), whether or not the badge was newly added. -/
theorem repay_reported_deltas (pp : Features → ℚ) (db : DB)
    (r : RepayRequest) (resp : RepayResponse) (db' : DB)
    (hok : record_repayment pp db r = .ok (resp, db')) :
    resp.points_earned = (if resp.status = "on-time" then 50 else 0) ∧
    resp.badges_earned =
      (if resp.new_repayment_streak = 3 then ["Consistent Payer"]
       else if resp.new_repayment_streak = 5 then ["Reliable Borrower"]
       else []) := by
  obtain ⟨loan, u, -, -, -, hpair⟩ :=
    (record_repayment_ok_iff pp db r resp db').mp hok
  have hresp : resp = (repaySuccess pp db r loan u).1 :=
    congrArg Prod.fst hpair
  rw [hresp]
  constructor <;> simp [repaySuccess]

/-- C10: the repay operation never verifies that the requesting user owns
the referenced loan: whenever the loan exists, the amount matches its
principal within 0.01, and the requesting user has a stored row, the
operation succeeds and records the repayment under the request's user id —
no hypothesis relates that user id to the loan's owner. -/
theorem repay_ignores_loan_owner (pp : Features → ℚ) (db : DB)
    (r : RepayRequest) (loan : LoanRow) (u : UserRow)
    (hloan : findLoan db r.loan_id = some loan)
    (hamt : |loan.amount - r.amount| ≤ 1/100)
    (huser : findUser db r.user_id = some u) :
    ∃ resp db', record_repayment pp db r = .ok (resp, db') ∧
      resp.user_id = r.user_id ∧
      db'.repayments = db.repayments ++
        [⟨r.user_id, r.loan_id, r.payment_date, r.amount,
          repayStatus r.payment_date loan.due_date⟩] := by
  refine ⟨(repaySuccess pp db r loan u).1, (repaySuccess pp db r loan u).2,
    ?_, ?_, ?_⟩
  · exact (record_repayment_ok_iff pp db r _ _).mpr
      ⟨loan, u, hloan, not_lt.mpr hamt, huser, rfl⟩
  · simp [repaySuccess]
  · cases hg : findGam db r.user_id <;> simp [repaySuccess, hg]

/-- The wrapped detail string for a re-raised 400 HTTPException. -/
theorem wrap400 :
    "Error processing repayment: " ++ toString (400 : ℕ) ++ ": " ++
      "Invalid loan or amount" =
    "Error processing repayment: 400: Invalid loan or amount" := by
  decide

/-- C2 is violated by the code: after an application and three on-time
repayments bob holds First Application and Consistent Payer, and his next
application overwrites the stored badge column with only that request's
badge delta (the empty list), removing both badges — a removal the claim
says can never happen.  The removal also re-arms both badge grants. -/
theorem badge_wiped_by_second_application :
    findGam dbT4 "bob" =
      some ⟨"bob", 3, 300, ["First Application", "Consistent Payer"]⟩ ∧
    findGam dbT5 "bob" = some ⟨"bob", 3, 350, []⟩ := by
  constructor
  · norm_num [dbT4, dbT3, dbT2, dbT1, stepApply, stepRepay, apply_loan,
      applyWrites, applyCommit, record_repayment, repaySuccess, explZero,
      is_first_application, scoreOf, decisionOf, ppHalf, db0, appBob,
      repayBob, findGam, findLoan, findUser, next_due_date, repayStatus,
      advance, UserRow.features, List.find?, loanIdBob0, loanIdBob100]
    all_goals decide
  · norm_num [dbT5, dbT4, dbT3, dbT2, dbT1, stepApply, stepRepay, apply_loan,
      applyWrites, applyCommit, record_repayment, repaySuccess, explZero,
      is_first_application, scoreOf, decisionOf, ppHalf, db0, appBob,
      repayBob, findGam, findLoan, findUser, next_due_date, repayStatus,
      advance, UserRow.features, List.find?, loanIdBob0, loanIdBob100]
    all_goals decide

/-- C5 is violated by the code in its error-class part: a repay request
with an unknown loan id, or with an amount differing from the principal by
more than 0.01, is rejected before any write — but the 400 HTTPException
raised for it is caught by the blanket except Exception clause and
re-raised as an internal 500 error, so the caller sees a 5xx, not a 4xx. -/
theorem repay_invalid_input_wrapped_500 :
    record_repayment ppHalf dbBob repayUnknown =
      .error ⟨500, "Error processing repayment: 400: Invalid loan or amount"⟩ ∧
    record_repayment ppHalf dbBob repayWrongAmt =
      .error ⟨500, "Error processing repayment: 400: Invalid loan or amount"⟩ := by
  constructor
  · norm_num [record_repayment, dbBob, loanBob, userBob, repayUnknown,
      findLoan, findUser, List.find?, wrap400,
      show ("Lbob_0" == "nosuch") = false by decide]
  · norm_num [record_repayment, dbBob, loanBob, userBob, repayWrongAmt,
      findLoan, findUser, List.find?, wrap400]

/-- C7 is false on the code: when the SHAP explainer raises, the whole
apply handler body raises, the blanket except turns it into a 500, and no
decision is returned or persisted. -/
theorem explainer_failure_fails_apply :
    apply_loan ppHalf explFail 0 db0 appBob =
      .error ⟨500, "Error processing loan application: " ++
        "shap explainer raised"⟩ :=
  rfl

/-- C7 (amended): if the explanation computation fails during a loan
application, the apply operation itself fails with an internal 500 error;
the decision and score are not returned, and the error path commits
nothing. -/
theorem explainer_failure_yields_500 (pp : Features → ℚ)
    (explain : Features → Option Explanation) (now : ℤ) (db : DB)
    (a : LoanApplication) (hfail : explain a.features = none) :
    apply_loan pp explain now db a =
      .error ⟨500, "Error processing loan application: " ++
        "shap explainer raised"⟩ := by
  unfold apply_loan
  simp only [hfail]

/-- Witness for the amended C7 at a concrete input. -/
theorem explainer_failure_yields_500_witness :
    apply_loan ppHigh explFail 7 dbBob appBob2 =
      .error ⟨500, "Error processing loan application: " ++
        "shap explainer raised"⟩ :=
  explainer_failure_yields_500 ppHigh explFail 7 dbBob appBob2 rfl

/-- C8 is false on the code at concrete inputs: from streak 2 with no
badges, an on-time repayment stores 150 new points (50 plus the 100 badge
bonus) but the response reports points_earned = 50; from streak 2 with
Consistent Payer already held, no badge is added to the stored set but the
response reports badges_earned = [Consistent Payer]. -/
theorem repay_delta_mismatch :
    record_repayment ppHalf dbStreak2 (repayBob 1) =
      .ok (respS2, dbStreak2After) ∧
    findGam dbStreak2 "bob" = some ⟨"bob", 2, 0, []⟩ ∧
    findGam dbStreak2After "bob" =
      some ⟨"bob", 3, 150, ["Consistent Payer"]⟩ ∧
    respS2.points_earned ≠ 150 - 0 ∧
    record_repayment ppHalf dbStreak2CP (repayBob 1) =
      .ok (respS2, dbStreak2CPAfter) ∧
    findGam dbStreak2CP "bob" =
      some ⟨"bob", 2, 100, ["Consistent Payer"]⟩ ∧
    findGam dbStreak2CPAfter "bob" =
      some ⟨"bob", 3, 150, ["Consistent Payer"]⟩ ∧
    respS2.badges_earned ≠ [] := by
  refine ⟨?_, by decide, by decide, by decide, ?_, by decide, by decide,
    by decide⟩
  · norm_num [record_repayment, repaySuccess, dbStreak2, dbStreak2After,
      loanBob, userBob, repayBob, respS2, ppHalf, scoreOf, findGam,
      findLoan, findUser, List.find?, repayStatus, advance,
      UserRow.features]
  · norm_num [record_repayment, repaySuccess, dbStreak2CP, dbStreak2CPAfter,
      loanBob, userBob, repayBob, respS2, ppHalf, scoreOf, findGam,
      findLoan, findUser, List.find?, repayStatus, advance,
      UserRow.features]

/-- C9 is false on the code: is_first_application runs on its own SQLite
connection outside the write transaction, so in the interleaving where
both concurrent apply requests for the same user run their count read
before either write commits, both observe a count of 0 and both grant the
First Application badge. -/
theorem race_both_grant_first_badge :
    (applyApplyRace ppHalf 0 100 db0 appBob).1 = ["First Application"] ∧
    (applyApplyRace ppHalf 0 100 db0 appBob).2.1 = ["First Application"] := by
  constructor <;>
    norm_num [applyApplyRace, applyWrites, applyCommit, is_first_application,
      scoreOf, decisionOf, ppHalf, db0, appBob, next_due_date, List.find?,
      loanIdBob0, loanIdBob100,
      show ("Lbob_0" == "Lbob_100") = false by decide,
      show ¬("Lbob_0" = "Lbob_100") by decide]

/-- C9 (amended): because the first-application count runs in a separate
connection before and outside the write transaction, two concurrent apply
requests for the same user can both observe a count of 0 and both report
the First Application badge as earned; the serialized writes then leave
the user with 100 points and the badge stored once. -/
theorem apply_race_double_grant :
    is_first_application db0 appBob.user_id = true ∧
    (applyApplyRace ppHalf 0 100 db0 appBob).1 = ["First Application"] ∧
    (applyApplyRace ppHalf 0 100 db0 appBob).2.1 = ["First Application"] ∧
    findGam (applyApplyRace ppHalf 0 100 db0 appBob).2.2 "bob" =
      some ⟨"bob", 0, 100, ["First Application"]⟩ := by
  refine ⟨by decide, ?_, ?_, ?_⟩ <;>
    norm_num [applyApplyRace, applyWrites, applyCommit, is_first_application,
      scoreOf, decisionOf, ppHalf, db0, appBob, next_due_date, findGam,
      List.find?, loanIdBob0, loanIdBob100,
      show ("Lbob_0" == "Lbob_100") = false by decide,
      show ¬("Lbob_0" = "Lbob_100") by decide]

/-- Witness for C3 at the concrete approving classifier. -/
theorem apply_decision_iff_score_witness :
    (respHighBob.decision = "approve" ↔ 70 < respHighBob.score) ∧
    0 ≤ respHighBob.score ∧ respHighBob.score ≤ 100 :=
  apply_decision_iff_score ppHigh explZero 0 db0 appBob respHighBob dbHighBob
    (by refine ⟨by decide, ?_, ?_, ?_, ?_, ?_, ?_⟩ <;> norm_num [appBob])
    (by norm_num [ppHigh]) (by norm_num [ppHigh])
    (by norm_num [apply_loan, applyWrites, applyCommit, explZero,
      is_first_application, scoreOf, decisionOf, ppHigh, db0, appBob,
      userBob, respHighBob, dbHighBob, next_due_date, List.find?,
      loanIdBob0])

/-- Witness for C4 at the grace-boundary repayment day 31 on a loan due
day 30. -/
theorem repay_status_stored_iff_witness :
    dbBob31.repayments = dbBob.repayments ++
      [⟨"bob", "Lbob_0", (31 : ℤ), (100 : ℚ), respBob31.status⟩] ∧
    (respBob31.status = "on-time" ↔ (31 : ℤ) ≤ 30 + 1) ∧
    repayStatus (30 + 1) 30 = "on-time" ∧
    repayStatus (30 + 2) 30 = "late" :=
  repay_status_stored_iff ppHalf dbBob (repayBob 31) loanBob respBob31
    dbBob31 (by rfl)
    (by norm_num [record_repayment, repaySuccess, dbBob, dbBob31, loanBob,
      userBob, repayBob, respBob31, ppHalf, scoreOf, findGam, findLoan,
      findUser, List.find?, repayStatus, advance, UserRow.features])

/-- Witness for C6: bob's second application carries different feature
values, succeeds, and leaves the stored row intact. -/
theorem apply_first_write_wins_witness :
    findUser dbBob2After "bob" = some userBob ∧
    appBob2.transaction_frequency ≠ userBob.transaction_frequency :=
  ⟨apply_first_write_wins ppHalf explZero 7 dbBob appBob2 userBob respBob2
      dbBob2After (by rfl)
      (by norm_num [apply_loan, applyWrites, applyCommit, explZero,
        is_first_application, scoreOf, decisionOf, ppHalf, dbBob, appBob2,
        userBob, loanBob, respBob2, dbBob2After, next_due_date, List.find?,
        loanIdBob7, show ("Lbob_0" == "Lbob_7") = false by decide,
        show ¬("Lbob_0" = "Lbob_7") by decide]),
    by norm_num [appBob2, userBob]⟩

/-- Witness for the amended C8 at the streak-2 run. -/
theorem repay_reported_deltas_witness :
    (respS2.points_earned = if respS2.status = "on-time" then 50 else 0) ∧
    respS2.badges_earned =
      (if respS2.new_repayment_streak = 3 then ["Consistent Payer"]
       else if respS2.new_repayment_streak = 5 then ["Reliable Borrower"]
       else []) :=
  repay_reported_deltas ppHalf dbStreak2 (repayBob 1) respS2 dbStreak2After
    (by norm_num [record_repayment, repaySuccess, dbStreak2, dbStreak2After,
      loanBob, userBob, repayBob, respS2, ppHalf, scoreOf, findGam,
      findLoan, findUser, List.find?, repayStatus, advance,
      UserRow.features])

/-- Witness for C10: alice's loan, repaid by bob with the matching amount,
is recorded under bob. -/
theorem repay_ignores_loan_owner_witness :
    loanAlice.user_id ≠ repayMix.user_id ∧
    ∃ resp db', record_repayment ppHalf dbMix repayMix = .ok (resp, db') ∧
      resp.user_id = repayMix.user_id ∧
      db'.repayments = dbMix.repayments ++
        [⟨"bob", "LA", (10 : ℤ), (100 : ℚ), repayStatus 10 30⟩] :=
  ⟨by decide,
   repay_ignores_loan_owner ppHalf dbMix repayMix loanAlice userBob
     (by rfl) (by norm_num [loanAlice, repayMix]) (by rfl)⟩

end MicroLoan
